import Mathlib

/-!
# Verification of the Morpho markets fetcher API

Shallow embedding of the two source files of the repository
(`src/morphoMarkets.ts` and the Express server file) and proofs of the
specification claims about them.

Modelling conventions:
* JSON values are the inductive `Json`; `JSON.parse` of a response body is
  modelled by carrying the parse outcome (`Option Json`, `none` = parse
  throws) alongside the raw text in a `Transport` record.
* JavaScript numbers are modelled as `Option ℚ` (`none` = NaN); the decimal
  string → number conversions performed by `Number(...)` and `parseInt(...)`
  are implemented below following the JS semantics on the relevant inputs.
* Thrown values are modelled by `Except` with the duck-typed error-object
  shape `ErrObj` (`message` / `status` / `details` / `rawResponse`, each
  optional, matching the plain objects the source throws); JS `try/catch`
  is the `Except` case split, written out where the control flow matters.
* JS truthiness tests on these fields are spelled out (`none`, `0`, `""`,
  `false`, `null` are falsy).
-/

namespace Morpho

/-- A JSON value, as produced by `JSON.parse`.  Numbers are exact rationals
(the float rounding of extreme literals is irrelevant to every claim). -/
inductive Json where
  | null
  | bool (b : Bool)
  | num (q : ℚ)
  | str (s : String)
  | arr (elems : List Json)
  | obj (members : List (String × Json))
  deriving Repr

/-- JS truthiness of a JSON value: `null`, `false`, `0` and `""` are falsy;
every object and array is truthy. -/
def Json.truthy : Json → Bool
  | .null => false
  | .bool b => b
  | .num q => q ≠ 0
  | .str s => s ≠ ""
  | .arr _ => true
  | .obj _ => true

/-- Duck-typed error object: the shape of every value thrown by the source
(`{message?, status?, details?, rawResponse?}`).  `message = ""` stands for
an absent/falsy message (both are falsy wherever `message` is tested). -/
structure ErrObj where
  message : String := ""
  status : Option Nat := none
  details : Option Json := none
  rawResponse : Option String := none
  deriving Repr

/-- Truthiness of `error.status` (undefined or `0` are falsy). -/
def ErrObj.statusTruthy (e : ErrObj) : Bool :=
  match e.status with
  | some s => s ≠ 0
  | none => false

/-- Truthiness of `error.details`. -/
def ErrObj.detailsTruthy (e : ErrObj) : Bool :=
  match e.details with
  | some d => d.truthy
  | none => false

/-- Truthiness of `error.rawResponse`. -/
def ErrObj.rawTruthy (e : ErrObj) : Bool :=
  match e.rawResponse with
  | some s => s ≠ ""
  | none => false

/-- JSON serialization of an error object (what `res.json` would emit for the
raw object); fields that are absent are dropped. -/
def ErrObj.toJson (e : ErrObj) : Json :=
  .obj ([("message", Json.str e.message)]
    ++ (match e.status with | some s => [("status", Json.num s)] | none => [])
    ++ (match e.details with | some d => [("details", d)] | none => [])
    ++ (match e.rawResponse with | some r => [("rawResponse", Json.str r)] | none => []))

/-! ## JS member access (`x.k`, `x?.k`) on parsed JSON values -/

/-- JS property read `v.k` on a parsed JSON value: on an object, the field
(first occurrence) or `undefined` (`none`); on `null` it throws a
`TypeError`; on any other primitive or an array the property named by a
query-path key is absent, hence `undefined`. -/
def jsMember (v : Json) (k : String) : Except ErrObj (Option Json) :=
  match v with
  | .null => .error { message := "TypeError: Cannot read properties of null (reading " ++ k ++ ")" }
  | .obj members => .ok ((members.find? (fun p => p.1 = k)).map (fun p => p.2))
  | _ => .ok none

/-- JS optional-chained read `x?.k` where `x` may be `undefined` (`none`):
`undefined?.k` and `null?.k` short-circuit to `undefined`. -/
def jsOptMember (x : Option Json) (k : String) : Except ErrObj (Option Json) :=
  match x with
  | none => .ok none
  | some .null => .ok none
  | some v => jsMember v k

/-- The source expression `result.data?.markets?.items` (note: the first
access is not optional-chained, so it throws on a `null` result). -/
def itemsPath (result : Json) : Except ErrObj (Option Json) := do
  let d ← jsMember result "data"
  let m ← jsOptMember d "markets"
  jsOptMember m "items"

/-! ## src/morphoMarkets.ts: saveRawResponse, handleGraphQLError, fetch -/

/-- The transport-level outcome of the outbound `fetch` once a response and
its body text have been obtained.  `bodyJson` carries the outcome of
`JSON.parse bodyText` (`none` = the parse throws a `SyntaxError`), so the
parser itself stays abstract while both of its outcomes are modelled. -/
structure Transport where
  status : Nat
  bodyText : String
  bodyJson : Option Json

/-- JS `response.ok`: status in the 2xx range. -/
def respOk (status : Nat) : Bool := 200 ≤ status && status < 300

/-- Model of `saveRawResponse` (morphoMarkets.ts:119–127): tries to write the raw body
to a local file; its `catch` swallows any write failure (only logging it), so
it never throws.  `writeFails` abstracts whether `fs.writeFileSync` throws;
the returned `Bool` records whether the file was actually persisted. -/
def saveRawResponse (writeFails : Bool) (_responseText : String) : Bool :=
  match (if writeFails then .error "write failed" else .ok () : Except String Unit) with
  | .ok _ => true
  | .error _ => false

/-- The `try`-block of `handleGraphQLError` (morphoMarkets.ts:131–137): if
`JSON.parse responseText` succeeds, it throws the `details` error object;
if the parse fails it propagates the `SyntaxError`.  Either way it throws. -/
def handleGraphQLErrorTryBlock (status : Nat) (parsed : Option Json) :
    Except ErrObj Empty :=
  match parsed with
  | some errorJson =>
      .error { message := "HTTP error! status: " ++ toString status,
               status := some status,
               details := some errorJson }
  | none => .error { message := "SyntaxError: Unexpected token in JSON" }

/-- Model of `handleGraphQLError` (morphoMarkets.ts:129–145).  The `throw` inside the
`try` block is caught by that statement's own `catch (e)`, which ignores `e`
and throws the raw-response error object — so the raw-response variant is
thrown no matter whether the body parsed as JSON. -/
def handleGraphQLError (status : Nat) (responseText : String) (parsed : Option Json) :
    ErrObj :=
  match handleGraphQLErrorTryBlock status parsed with
  | .ok x => x.elim
  | .error _e =>
      { message := "HTTP error! status: " ++ toString status
          ++ ". Response not JSON: " ++ responseText,
        status := some status,
        rawResponse := some responseText }

/-- The `try`-block of `fetchMorphoMarketsAPI` (morphoMarkets.ts:150–183),
after the response body has been read and saved: non-2xx goes through
`handleGraphQLError` (which always throws); otherwise the body is parsed
(`SyntaxError` on failure) and `result.data?.markets?.items` is tested for
truthiness — truthy items are returned verbatim, otherwise the
schema-mismatch error object is thrown. -/
def fetchTryBlock (t : Transport) : Except ErrObj Json :=
  if !respOk t.status then
    .error (handleGraphQLError t.status t.bodyText t.bodyJson)
  else
    match t.bodyJson with
    | none => .error { message := "SyntaxError: Unexpected token in JSON" }
    | some result =>
      match itemsPath result with
      | .error te => .error te
      | .ok items =>
        match items with
        | some v =>
          if v.truthy then .ok v
          else .error { message := "GraphQL query successful but data not in expected structure",
                        status := some 500, details := some result }
        | none =>
          .error { message := "GraphQL query successful but data not in expected structure",
                   status := some 500, details := some result }

/-- The `catch` of `fetchMorphoMarketsAPI` (morphoMarkets.ts:185–194):
errors with a truthy `status` and truthy `details`, or truthy `status` and
truthy `rawResponse`, are rethrown as-is; everything else is wrapped in the
generic failure object (`status := error.status || 500`,
`details := error.message || error`). -/
def fetchCatch (e : ErrObj) : ErrObj :=
  if e.statusTruthy && e.detailsTruthy then e
  else if e.statusTruthy && e.rawTruthy then e
  else
    { message := "Failed to fetch or parse data from Morpho API.",
      status := some (if e.statusTruthy then e.status.getD 500 else 500),
      details := some (if e.message ≠ "" then Json.str e.message else e.toJson) }

/-- The value/error produced by `fetchMorphoMarketsAPI` for a given
transport outcome (on success, the `items` JSON value verbatim). -/
def fetchMorphoMarketsResult (t : Transport) : Except ErrObj Json :=
  match fetchTryBlock t with
  | .ok v => .ok v
  | .error e => .error (fetchCatch e)

/-- Full observable outcome of one run of `fetchMorphoMarketsAPI` given the
transport outcome and whether the diagnostic file write fails:
`savedRawAttempt` is the text handed to `saveRawResponse` (handed over
before the ok/parse/schema branching at morphoMarkets.ts:166),
`persistSucceeded` whether the write went through, and `result` the
fetch outcome. -/
structure FetchOutcome where
  savedRawAttempt : Option String
  persistSucceeded : Bool
  result : Except ErrObj Json
  deriving Repr

/-- Model of `fetchMorphoMarketsAPI` (morphoMarkets.ts:147–195), from the point where
a response body text exists. -/
def fetchMorphoMarketsAPI (t : Transport) (writeFails : Bool) : FetchOutcome :=
  let persisted := saveRawResponse writeFails t.bodyText
  { savedRawAttempt := some t.bodyText,
    persistSucceeded := persisted,
    result := fetchMorphoMarketsResult t }

/-! ## JS numeric string conversions (`parseInt`, `Number`) -/

/-- Value of one digit character in the given base (10 or 16), `none` when
the character is not a digit of that base. -/
def digitVal (base : Nat) (c : Char) : Option Nat :=
  if '0' ≤ c ∧ c ≤ '9' then
    let v := c.toNat - '0'.toNat
    if v < base then some v else none
  else if base = 16 ∧ 'a' ≤ c ∧ c ≤ 'f' then some (c.toNat - 'a'.toNat + 10)
  else if base = 16 ∧ 'A' ≤ c ∧ c ≤ 'F' then some (c.toNat - 'A'.toNat + 10)
  else none

/-- Accumulate a digit list into a natural number. -/
def digitsVal (base : Nat) (ds : List Char) : Nat :=
  ds.foldl (fun acc c => acc * base + (digitVal base c).getD 0) 0

/-- JS `parseInt(s)` (no radix argument): skip leading whitespace, optional
sign, optional `0x`/`0X` prefix switching to base 16, then the maximal run
of digits; `NaN` (`none`) when that run is empty. -/
def parseIntJS (s : String) : Option Int :=
  let cs := s.toList.dropWhile Char.isWhitespace
  let sgnBody : Int × List Char :=
    match cs with
    | '-' :: rest => (-1, rest)
    | '+' :: rest => (1, rest)
    | _ => (1, cs)
  let baseDigits : Nat × List Char :=
    match sgnBody.2 with
    | '0' :: 'x' :: rest => (16, rest)
    | '0' :: 'X' :: rest => (16, rest)
    | _ => (10, sgnBody.2)
  let valid := baseDigits.2.takeWhile (fun c => (digitVal baseDigits.1 c).isSome)
  if valid.isEmpty then none
  else some (sgnBody.1 * Int.ofNat (digitsVal baseDigits.1 valid))

/-- A JS number: `none` is `NaN` (infinities, which no claim touches, are
outside the model).  Values are exact rationals. -/
abbrev JNum := Option ℚ

/-- NaN-propagating multiplication. -/
def jnumMul : JNum → JNum → JNum
  | some a, some b => some (a * b)
  | _, _ => none

/-- Computes `x / Math.pow(10, d)` for a natural `d` (the divisor is never zero). -/
def jnumDivPow10 (x : JNum) (d : Nat) : JNum :=
  x.map (fun q => q / (10 : ℚ) ^ d)

/-- JS `Number(s)` on a string: whitespace-trimmed; empty means `0`; a bare
`0x`/`0X` literal is hex; otherwise an optionally signed decimal literal
`digits [. digits] [e|E [sign] digits]` with at least one mantissa digit;
anything else is `NaN` (`none`).  The rational `int.frac × 10^exp` is built
with `mkRat` and `Nat` powers so that concrete instances evaluate by
kernel reduction. -/
def jsNumber (s : String) : Option ℚ :=
  let cs := ((s.toList.dropWhile Char.isWhitespace).reverse.dropWhile
    Char.isWhitespace).reverse
  if cs.isEmpty then some 0
  else
    match cs with
    | '0' :: 'x' :: rest =>
      if rest ≠ [] ∧ rest.all (fun c => (digitVal 16 c).isSome) then
        some (mkRat (Int.ofNat (digitsVal 16 rest)) 1)
      else none
    | '0' :: 'X' :: rest =>
      if rest ≠ [] ∧ rest.all (fun c => (digitVal 16 c).isSome) then
        some (mkRat (Int.ofNat (digitsVal 16 rest)) 1)
      else none
    | _ =>
      let sgnBody : Int × List Char :=
        match cs with
        | '-' :: rest => (-1, rest)
        | '+' :: rest => (1, rest)
        | _ => (1, cs)
      let isDigit : Char → Bool := fun c => (digitVal 10 c).isSome
      let intDigits := sgnBody.2.takeWhile isDigit
      let rest1 := sgnBody.2.dropWhile isDigit
      let fracRest : List Char × List Char :=
        match rest1 with
        | '.' :: r => (r.takeWhile isDigit, r.dropWhile isDigit)
        | _ => ([], rest1)
      if intDigits.isEmpty ∧ fracRest.1.isEmpty then none
      else
        let den : Nat := 10 ^ fracRest.1.length
        let mant : ℚ := mkRat
          (sgnBody.1 * Int.ofNat (digitsVal 10 intDigits * den + digitsVal 10 fracRest.1))
          den
        match fracRest.2 with
        | [] => some mant
        | e :: r =>
          if e = 'e' ∨ e = 'E' then
            let expSgnBody : Bool × List Char :=
              match r with
              | '-' :: r2 => (false, r2)
              | '+' :: r2 => (true, r2)
              | _ => (true, r)
            if ¬expSgnBody.2.isEmpty ∧ expSgnBody.2.all isDigit then
              let ePow : Nat := 10 ^ digitsVal 10 expSgnBody.2
              some (if expSgnBody.1 then mant * mkRat (Int.ofNat ePow) 1
                    else mant * mkRat 1 ePow)
            else none
          else none

/-! ## Market records (the runtime shape of a fetched market item) -/

/-- Interface `MarketChainInfo` (morphoMarkets.ts:14–16). -/
structure MarketChainInfo where
  network : String
  deriving Repr, DecidableEq

/-- Interface `MarketLoanAsset` (morphoMarkets.ts:6–12); `chain` is optional because
the transformer reads it through `loanAsset.chain?.network`. -/
structure MarketLoanAsset where
  address : String
  decimals : Nat
  symbol : String
  priceUsd : String
  chain : Option MarketChainInfo
  deriving Repr, DecidableEq

/-- The runtime collateral-asset object.  The declared interface inside
`FetchedMorphoMarket` (morphoMarkets.ts:49–51) and the GraphQL query select
only `address`; the transformer nevertheless reads `collateralAsset.symbol`
duck-typed, so the model carries it as an optional field (`none` =
`undefined` at runtime). -/
structure MarketCollateralAsset where
  address : String
  symbol : Option String
  deriving Repr, DecidableEq

/-- Interface `RewardAssetInfo` (morphoMarkets.ts:25–28). -/
structure RewardAssetInfo where
  decimals : Nat
  priceUsd : String
  deriving Repr, DecidableEq

/-- Interface `MarketRewardsInfo` (morphoMarkets.ts:41–44). -/
structure MarketRewardsInfo where
  yearlySupplyTokens : String
  asset : RewardAssetInfo
  deriving Repr, DecidableEq

/-- Interface `MarketState` (morphoMarkets.ts:30–39); `fee` and `timestamp` are JS
numbers, the large quantities are decimal strings. -/
structure MarketState where
  price : String
  fee : ℚ
  supplyAssets : String
  borrowAssets : String
  supplyShares : String
  borrowShares : String
  timestamp : Nat
  rewards : Option (List MarketRewardsInfo)
  deriving Repr, DecidableEq

/-- Interface `FetchedMorphoMarket` (morphoMarkets.ts:46–56); `collateralAsset` is
declared non-null there but both consumers test it for null/undefined
(`market.collateralAsset?.address`, `collateralAsset ? … : …`), so the model
makes it optional. -/
structure FetchedMorphoMarket where
  loanAsset : MarketLoanAsset
  uniqueKey : String
  collateralAsset : Option MarketCollateralAsset
  oracleAddress : String
  irmAddress : String
  lltv : String
  state : MarketState
  deriving Repr, DecidableEq

/-! ## Rate enricher (server file, lines 38–81) -/

/-- The market-parameters tuple passed to `borrowRateView`
(`buildMarketParams`, server file lines 38–46). -/
structure MarketParams where
  loanToken : String
  collateralToken : String
  oracle : String
  irm : String
  lltv : String
  deriving Repr, DecidableEq

/-- The market-state tuple passed to `borrowRateView` (`buildMarketStruct`,
server file lines 48–57).  The string fields carry `.toString()` of values
that are already strings (the identity); `fee` is kept as the number it
renders from, since the tuple is consumed only by the opaque chain call. -/
structure MarketStruct where
  totalSupplyAssets : String
  totalSupplyShares : String
  totalBorrowAssets : String
  totalBorrowShares : String
  lastUpdate : String
  fee : ℚ
  deriving Repr, DecidableEq

/-- Model of `buildMarketParams`: the collateral token falls back to the zero address
when the collateral asset is absent or its address is falsy
(`market.collateralAsset?.address || "0x00…00"`). -/
def buildMarketParams (market : FetchedMorphoMarket) : MarketParams :=
  { loanToken := market.loanAsset.address,
    collateralToken :=
      match market.collateralAsset with
      | some c => if c.address ≠ "" then c.address
                  else "0x0000000000000000000000000000000000000000"
      | none => "0x0000000000000000000000000000000000000000",
    oracle := market.oracleAddress,
    irm := market.irmAddress,
    lltv := market.lltv }

/-- Model of `buildMarketStruct`. -/
def buildMarketStruct (market : FetchedMorphoMarket) : MarketStruct :=
  { totalSupplyAssets := market.state.supplyAssets,
    totalSupplyShares := market.state.supplyShares,
    totalBorrowAssets := market.state.borrowAssets,
    totalBorrowShares := market.state.borrowShares,
    lastUpdate := toString market.state.timestamp,
    fee := market.state.fee }

/-- Outcome of the read-only `borrowRateView` contract invocation: the
returned rate as a `BigNumber` (a natural), or a thrown failure (network,
revert, decode error).  The contract itself is external, so the model
quantifies over this oracle. -/
abbrev ChainCall := MarketParams → MarketStruct → Except String Nat

/-- Model of `getBorrowRateFromContract` (server file lines 59–81): builds the two
tuples, invokes the contract, returns `rate.toString()`; the `catch`
swallows every failure and returns `null` (`none`).  Never throws. -/
def getBorrowRateFromContract (call : ChainCall) (market : FetchedMorphoMarket) :
    Option String :=
  match call (buildMarketParams market) (buildMarketStruct market) with
  | .ok rate => some (toString rate)
  | .error _ => none

/-! ## Market transformer (server file, lines 20–122) -/

/-- Interface `MarketOutputForCalculator` (server file lines 20–36).  `token_price`,
`total_supplied` and `total_borrowed` are JS numbers at runtime. -/
structure MarketOutputForCalculator where
  id : String
  name : String
  network : String
  protocol : String
  source : String
  token_price : JNum
  total_supplied : JNum
  total_borrowed : JNum
  fee_percentage : ℚ
  optimal_usage_ratio : ℚ
  reserve_factor : ℚ
  yearlySupplyTokens : String
  rewardTokenDecimals : Nat
  rewardTokenPriceUsd : String
  rate_per_second : String
  deriving Repr, DecidableEq

/-- Rendering of a possibly-undefined string inside a JS template literal
(`undefined` renders as the text `"undefined"`). -/
def jsTemplateShow : Option String → String
  | some s => s
  | none => "undefined"

/-- Model of `transformMarketData` (server file lines 83–122), with the awaited
chain call supplied as the oracle `call`. -/
def transformMarketData (call : ChainCall) (market : FetchedMorphoMarket) :
    MarketOutputForCalculator :=
  let network :=
    match market.loanAsset.chain with
    | some c => if c.network ≠ "" then c.network else "Unknown"
    | none => "Unknown"
  let reward : Option MarketRewardsInfo :=
    match market.state.rewards with
    | some (r :: _) => some r
    | _ => none
  let rate_per_second := (getBorrowRateFromContract call market).getD "0"
  let loanAssetPrice := jsNumber market.loanAsset.priceUsd
  let supplyAssetsInUsd :=
    jnumMul (jnumDivPow10 (jsNumber market.state.supplyAssets) market.loanAsset.decimals)
      loanAssetPrice
  let borrowAssetsInUsd :=
    jnumMul (jnumDivPow10 (jsNumber market.state.borrowAssets) market.loanAsset.decimals)
      loanAssetPrice
  let marketName :=
    match market.collateralAsset with
    | some c => jsTemplateShow c.symbol ++ "/" ++ market.loanAsset.symbol ++ " Market"
    | none => market.loanAsset.symbol ++ " Market"
  { id := market.uniqueKey,
    name := marketName,
    network := network,
    protocol := "Morpho",
    source := "Morpho " ++ network,
    token_price := loanAssetPrice,
    total_supplied := supplyAssetsInUsd,
    total_borrowed := borrowAssetsInUsd,
    fee_percentage := market.state.fee,
    optimal_usage_ratio := 0.9,
    reserve_factor := 0,
    yearlySupplyTokens := match reward with | some r => r.yearlySupplyTokens | none => "0",
    rewardTokenDecimals := match reward with | some r => r.asset.decimals | none => 18,
    rewardTokenPriceUsd := match reward with | some r => r.asset.priceUsd | none => "0",
    rate_per_second := rate_per_second }

/-! ## HTTP endpoint (server file, lines 124–169) -/

/-- An Express query-parameter value: a string, or some non-string value
(array / nested object), which is truthy but fails `typeof === 'string'`. -/
inductive QVal where
  | str (s : String)
  | nonStr
  deriving Repr, DecidableEq

/-- The query parameters read by the route (`req.query` destructuring,
line 127). -/
structure QueryParams where
  loanAssetAddress : Option QVal := none
  first : Option QVal := none
  orderBy : Option QVal := none
  deriving Repr, DecidableEq

/-- Type `MarketFilters` (morphoMarkets.ts:108–111). -/
structure MarketFilters where
  loanAssetAddress_in : Option String := none
  whitelisted : Option Bool := none
  deriving Repr, DecidableEq

/-- Type `FetchMarketsVariables` (morphoMarkets.ts:113–117). -/
structure FetchMarketsVariables where
  «where» : Option MarketFilters := none
  first : Option Int := none
  orderBy : Option String := none
  deriving Repr, DecidableEq

/-- The `first` variable computed by lines 136–144: a truthy string is
`parseInt`-ed and kept only when positive (otherwise `first` stays unset);
every other shape (absent, empty string, non-string) takes the default 10. -/
def firstVariable (first : Option QVal) : Option Int :=
  match first with
  | some (.str f) =>
    if f ≠ "" then
      match parseIntJS f with
      | some n => if 0 < n then some n else none
      | none => none
    else some 10
  | some .nonStr => some 10
  | none => some 10

/-- The `orderBy` variable computed by lines 146–149: set only for a truthy
string. -/
def orderByVariable (orderBy : Option QVal) : Option String :=
  match orderBy with
  | some (.str s) => if s ≠ "" then some s else none
  | _ => none

/-- The complete variables object handed to the fetcher once
`loanAssetAddress` validated as the truthy string `addr` (lines 126–149). -/
def marketsVariables (q : QueryParams) (addr : String) : FetchMarketsVariables :=
  { «where» := some { loanAssetAddress_in := some addr, whitelisted := some true },
    first := firstVariable q.first,
    orderBy := orderByVariable q.orderBy }

/-- An HTTP reply of the route, kept as the pre-serialization value that
`res.status(…).json(…)` is given: the 200 array of transformed markets, the
400 `{error}` body, or an `{error, details}` error body. -/
inductive Reply where
  | markets (items : List MarketOutputForCalculator)
  | clientError (status : Nat) (error : String)
  | serverError (status : Nat) (error : String) (details : Json)
  deriving Repr

/-- The route's `catch` handler (lines 160–168): status from
`error.status || 500`, message from `error.message || generic`, details from
`error.details || (error.rawResponse ? {rawResponse} : (error.message ?
null : error))`. -/
def marketsErrorResponse (e : ErrObj) : Reply :=
  let statusCode := if e.statusTruthy then e.status.getD 500 else 500
  let msg := if e.message ≠ "" then e.message else "An internal server error occurred"
  let details : Json :=
    if e.detailsTruthy then e.details.getD .null
    else if e.rawTruthy then .obj [("rawResponse", .str (e.rawResponse.getD ""))]
    else if e.message ≠ "" then .null
    else e.toJson
  .serverError statusCode msg details

/-- The `GET /markets` route handler (lines 124–169), abstracted over the
fetcher and the chain-call oracle.  Returns the reply together with the log
of outbound GraphQL calls (the variables of each call made).  The
`Promise.all(fetchedMarkets.map(transformMarketData))` resolves to the
per-item transforms in input order, i.e. `List.map`. -/
def marketsHandler (q : QueryParams)
    (fetcher : FetchMarketsVariables → Except ErrObj (List FetchedMorphoMarket))
    (call : ChainCall) : Reply × List FetchMarketsVariables :=
  match q.loanAssetAddress with
  | some (.str addr) =>
    if addr ≠ "" then
      let vars := marketsVariables q addr
      match fetcher vars with
      | .ok fetchedMarkets =>
        (.markets (fetchedMarkets.map (transformMarketData call)), [vars])
      | .error e => (marketsErrorResponse e, [vars])
    else (.clientError 400 "Missing or invalid required query parameter: loanAssetAddress", [])
  | some .nonStr =>
    (.clientError 400 "Missing or invalid required query parameter: loanAssetAddress", [])
  | none =>
    (.clientError 400 "Missing or invalid required query parameter: loanAssetAddress", [])

/-! ## Claims -/

/-- The transport outcome used to exercise C1: HTTP 500 whose body is the
JSON text `{"errors":[]}`. -/
def c1Transport : Transport :=
  { status := 500
    bodyText := "\x7b\"errors\":[]\x7d"
    bodyJson := some (Json.obj [("errors", Json.arr [])]) }

/-- The error `fetchMorphoMarketsAPI` actually throws on `c1Transport`: the
raw-body variant, with no `details` field and a message claiming the
response is not JSON. -/
def c1Thrown : ErrObj :=
  { message := "HTTP error! status: 500. Response not JSON: \x7b\"errors\":[]\x7d"
    status := some 500
    details := none
    rawResponse := some "\x7b\"errors\":[]\x7d" }

/-- C1: the claim says a non-2xx reply whose body parses as JSON fails with
an error carrying `details = parsedBody`.  The code does not: the `throw` of
the details object inside `handleGraphQLError`'s `try` is caught by that
statement's own `catch`, which throws the raw-body variant instead.  At
status 500 with the JSON body `{"errors":[]}` the fetch fails with `details`
absent and `rawResponse` set, and the endpoint's reply carries
`{rawResponse: …}` — not the parsed body — as `details`. -/
theorem claim_C1_http_error_details_dropped :
    (fetchMorphoMarketsAPI c1Transport false).result = .error c1Thrown
    ∧ c1Thrown.details = none
    ∧ marketsErrorResponse c1Thrown
      = .serverError 500 "HTTP error! status: 500. Response not JSON: \x7b\"errors\":[]\x7d"
          (.obj [("rawResponse", .str "\x7b\"errors\":[]\x7d")]) :=
  ⟨rfl, rfl, rfl⟩

/-- The transport outcome refuting C5 as stated: HTTP 200 whose body is the
JSON text `0` — it parses, and the payload lacks the `data.markets.items`
path. -/
def c5Transport : Transport :=
  { status := 200, bodyText := "0", bodyJson := some (.num 0) }

/-- The error the fetch actually produces on `c5Transport`: the
schema-mismatch error's `details` (the payload `0`) is falsy, so the outer
`catch` re-wraps it into the generic error whose `details` is the
schema-mismatch message string. -/
def c5Thrown : ErrObj :=
  { message := "Failed to fetch or parse data from Morpho API."
    status := some 500
    details := some (.str "GraphQL query successful but data not in expected structure")
    rawResponse := none }

/-- C5 counterexample: on `c5Transport` (2xx, parsed payload `0` lacking the
`data.markets.items` path) the fetch does not fail with a schema-mismatch
error carrying the parsed payload as `details`: its `details` is the
message string, which differs from the parsed payload `0`. -/
theorem claim_C5_counterexample :
    (fetchMorphoMarketsAPI c5Transport false).result = .error c5Thrown
    ∧ c5Thrown.details ≠ some (Json.num 0) :=
  ⟨rfl, fun h => Json.noConfusion (Option.some.inj h)⟩

/-- C5 (amended): for a 2xx transport whose parsed payload is truthy under
JS and lacks the `data.markets.items` path, the fetch fails with the
schema-mismatch error whose `details` equal the parsed payload, the
endpoint's catch handler turns exactly that error into a 500 reply carrying
the payload as `details`, and the route replies that way; when the path
holds an items array it is returned verbatim. -/
theorem claim_C5_schema_mismatch (t : Transport) (p : Json)
    (hok : respOk t.status = true) (hp : t.bodyJson = some p)
    (htr : p.truthy = true) :
    (itemsPath p = .ok none →
      (fetchMorphoMarketsAPI t false).result
        = .error { message := "GraphQL query successful but data not in expected structure",
                   status := some 500, details := some p }
      ∧ marketsErrorResponse
          { message := "GraphQL query successful but data not in expected structure",
            status := some 500, details := some p }
        = .serverError 500 "GraphQL query successful but data not in expected structure" p
      ∧ ∀ (q : QueryParams) (call : ChainCall) (addr : String),
          q.loanAssetAddress = some (.str addr) → addr ≠ "" →
          (marketsHandler q
            (fun _ => .error { message := "GraphQL query successful but data not in expected structure",
                               status := some 500, details := some p }) call).1
            = .serverError 500 "GraphQL query successful but data not in expected structure" p)
    ∧ ∀ xs, itemsPath p = .ok (some (.arr xs)) →
        (fetchMorphoMarketsAPI t false).result = .ok (.arr xs) := by
  constructor
  · intro hpath
    have hres : (fetchMorphoMarketsAPI t false).result
        = .error { message := "GraphQL query successful but data not in expected structure",
                   status := some 500, details := some p } := by
      simp only [fetchMorphoMarketsAPI, fetchMorphoMarketsResult, fetchTryBlock, hok, hp,
        Bool.not_true, Bool.false_eq_true, if_false, hpath]
      simp [fetchCatch, ErrObj.statusTruthy, ErrObj.detailsTruthy, htr]
    refine ⟨hres, ?_, ?_⟩
    · simp [marketsErrorResponse, ErrObj.statusTruthy, ErrObj.detailsTruthy, htr]
    · intro q call addr hq hne
      simp [marketsHandler, hq, hne, marketsErrorResponse, ErrObj.statusTruthy,
        ErrObj.detailsTruthy, htr]
  · intro xs hpath
    simp only [fetchMorphoMarketsAPI, fetchMorphoMarketsResult, fetchTryBlock, hok, hp,
      Bool.not_true, Bool.false_eq_true, if_false, hpath]
    simp [Json.truthy]

/-- The transport outcome witnessing the amended C5: HTTP 200 whose body is
the JSON text `{"data":{}}`. -/
def c5WitnessTransport : Transport :=
  { status := 200
    bodyText := "\x7b\"data\":\x7b\x7d\x7d"
    bodyJson := some (.obj [("data", .obj [])]) }

/-- C5 witness: on a concrete 200 transport with payload `{"data":{}}` the
amended hypotheses hold and the fetch fails with the schema-mismatch error
carrying the payload as `details`. -/
theorem claim_C5_schema_mismatch_witness :
    (fetchMorphoMarketsAPI c5WitnessTransport false).result
      = .error
          { message := "GraphQL query successful but data not in expected structure"
            status := some 500
            details := some (.obj [("data", .obj [])]) } :=
  ((claim_C5_schema_mismatch c5WitnessTransport (.obj [("data", .obj [])])
      rfl rfl rfl).1 rfl).1

/-- C6: when the `loanAssetAddress` query parameter is absent or not a
string, the route replies 400 with the prescribed body and the outbound call
log is empty, whatever the fetcher and chain oracles are (so no GraphQL and
no chain call is ever consulted). -/
theorem claim_C6_missing_loan_asset_address (q : QueryParams)
    (fetcher : FetchMarketsVariables → Except ErrObj (List FetchedMorphoMarket))
    (call : ChainCall)
    (h : q.loanAssetAddress = none ∨ q.loanAssetAddress = some .nonStr) :
    marketsHandler q fetcher call
      = (.clientError 400 "Missing or invalid required query parameter: loanAssetAddress", []) := by
  rcases h with h | h <;> simp [marketsHandler, h]

/-- C6 witness: the theorem applied to a request with no query parameters
at all and concrete (never-consulted) oracles. -/
theorem claim_C6_missing_loan_asset_address_witness :
    marketsHandler {} (fun _ => .ok []) (fun _ _ => .ok 0)
      = (.clientError 400 "Missing or invalid required query parameter: loanAssetAddress", []) :=
  claim_C6_missing_loan_asset_address {} (fun _ => .ok []) (fun _ _ => .ok 0) (Or.inl rfl)

/-- C9: for every obtained response body, the raw text is handed to
`saveRawResponse` (before the ok/parse/schema branching), and whether the
file write fails has no effect on the fetch's returned value or thrown
error; a failing write is recorded as merely not persisted. -/
theorem claim_C9_persist_best_effort (t : Transport) (w w' : Bool) :
    (fetchMorphoMarketsAPI t w).savedRawAttempt = some t.bodyText
    ∧ (fetchMorphoMarketsAPI t w).result = (fetchMorphoMarketsAPI t w').result
    ∧ (fetchMorphoMarketsAPI t true).persistSucceeded = false
    ∧ (fetchMorphoMarketsAPI t false).persistSucceeded = true :=
  ⟨rfl, rfl, rfl, rfl⟩

/-- C2: for markets whose (duck-typed) collateral symbol is present and
equal to `S` and whose loan symbol is `L`, the transformed name is
`"S/L Market"`; with no collateral asset it is `"L Market"`. -/
theorem claim_C2_market_name (call : ChainCall) (market : FetchedMorphoMarket)
    (c : MarketCollateralAsset) (S L : String) :
    (market.collateralAsset = some c → c.symbol = some S →
      market.loanAsset.symbol = L →
      (transformMarketData call market).name = S ++ "/" ++ L ++ " Market")
    ∧ (market.collateralAsset = none → market.loanAsset.symbol = L →
      (transformMarketData call market).name = L ++ " Market") := by
  constructor
  · intro h1 h2 h3
    simp [transformMarketData, h1, h2, h3, jsTemplateShow]
  · intro h1 h2
    simp [transformMarketData, h1, h2]

/-- A collateral asset whose runtime object carries the symbol `"WETH"`. -/
def wethCollateral : MarketCollateralAsset :=
  { address := "0xC02aaA39", symbol := some "WETH" }

/-- A USDC loan asset with 6 decimals and price `"1.00"`. -/
def usdcLoanAsset : MarketLoanAsset :=
  { address := "0xA0b86991"
    decimals := 6
    symbol := "USDC"
    priceUsd := "1.00"
    chain := some { network := "ethereum" } }

/-- A sample market state. -/
def sampleState : MarketState :=
  { price := "1"
    fee := 0
    supplyAssets := "1000000"
    borrowAssets := "500000"
    supplyShares := "1"
    borrowShares := "1"
    timestamp := 1700000000
    rewards := none }

/-- A WETH-collateral / USDC-loan market. -/
def wethUsdcMarket : FetchedMorphoMarket :=
  { loanAsset := usdcLoanAsset
    uniqueKey := "0xkey1"
    collateralAsset := some wethCollateral
    oracleAddress := "0xOracle"
    irmAddress := "0xIrm"
    lltv := "860000000000000000"
    state := sampleState }

/-- The same market without a collateral asset. -/
def noCollateralMarket : FetchedMorphoMarket :=
  { wethUsdcMarket with collateralAsset := none, uniqueKey := "0xkey2" }

/-- A chain-call oracle that always succeeds with rate 12345. -/
def okCall : ChainCall := fun _ _ => .ok 12345

/-- C2 witness: the WETH/USDC pair gives `"WETH/USDC Market"`; without a
collateral asset the name is `"USDC Market"`. -/
theorem claim_C2_market_name_witness :
    (transformMarketData okCall wethUsdcMarket).name = "WETH/USDC Market"
    ∧ (transformMarketData okCall noCollateralMarket).name = "USDC Market" :=
  ⟨(claim_C2_market_name okCall wethUsdcMarket wethCollateral "WETH" "USDC").1 rfl rfl rfl,
   (claim_C2_market_name okCall noCollateralMarket wethCollateral "WETH" "USDC").2 rfl rfl⟩

/-- A request with a valid address and `first="-1"`. -/
def c3Query : QueryParams :=
  { loanAssetAddress := some (.str "0xA0b86991"), first := some (.str "-1") }

/-- C3 counterexample: with `first="-1"` the single outbound GraphQL call
carries *no* `first` at all (`none`), not the default `10` the claim
asserts (the code assigns the default only when the parameter is absent,
empty or not a string; an invalid numeric just leaves `first` unset, so
the query document's own default governs). -/
theorem claim_C3_counterexample :
    (marketsHandler c3Query (fun _ => .ok []) okCall).2.map FetchMarketsVariables.first
      = [none]
    ∧ (none : Option Int) ≠ some 10 :=
  ⟨rfl, fun h => Option.noConfusion h⟩

/-- C3 (amended): with a valid address, exactly one outbound call is made
with variables `marketsVariables q addr`; `first="5"` yields `first = 5`;
`first="-1"` or a non-numeric string leaves `first` unset (the GraphQL
document's own default then governs); the default `10` is used when the
parameter is absent. -/
theorem claim_C3_first_param (q : QueryParams)
    (fetcher : FetchMarketsVariables → Except ErrObj (List FetchedMorphoMarket))
    (call : ChainCall) (addr : String)
    (hq : q.loanAssetAddress = some (.str addr)) (hne : addr ≠ "") :
    (marketsHandler q fetcher call).2 = [marketsVariables q addr]
    ∧ (q.first = some (.str "5") → (marketsVariables q addr).first = some 5)
    ∧ (q.first = some (.str "-1") → (marketsVariables q addr).first = none)
    ∧ (∀ s, q.first = some (.str s) → s ≠ "" → parseIntJS s = none →
        (marketsVariables q addr).first = none)
    ∧ (q.first = none → (marketsVariables q addr).first = some 10) := by
  refine ⟨?_, ?_, ?_, ?_, ?_⟩
  · rcases hfetch : fetcher (marketsVariables q addr) with v | e <;>
      simp [marketsHandler, hq, hne, hfetch]
  · intro h
    simp only [marketsVariables, h]
    rfl
  · intro h
    simp only [marketsVariables, h]
    rfl
  · intro s h hs hparse
    simp only [marketsVariables, h, firstVariable, hs, hparse]
    simp only [ne_eq, ite_not, ite_eq_right_iff]
    intro hcon
    exact absurd hcon hs
  · intro h
    simp only [marketsVariables, h]
    rfl

/-- A request with a valid address and `first="5"`. -/
def c3WitnessQuery : QueryParams :=
  { loanAssetAddress := some (.str "0xA0b86991"), first := some (.str "5") }

/-- C3 witness: with `first="5"` the single outbound call carries
`first = 5`; with the parameter absent it carries the default `10`. -/
theorem claim_C3_first_param_witness :
    (marketsHandler c3WitnessQuery (fun _ => .ok []) okCall).2
      = [marketsVariables c3WitnessQuery "0xA0b86991"]
    ∧ (marketsVariables c3WitnessQuery "0xA0b86991").first = some 5
    ∧ (marketsVariables
        { loanAssetAddress := some (.str "0xA0b86991") } "0xA0b86991").first = some 10 :=
  ⟨(claim_C3_first_param c3WitnessQuery (fun _ => .ok []) okCall "0xA0b86991" rfl
      (by decide)).1,
   (claim_C3_first_param c3WitnessQuery (fun _ => .ok []) okCall "0xA0b86991" rfl
      (by decide)).2.1 rfl,
   (claim_C3_first_param { loanAssetAddress := some (.str "0xA0b86991") }
      (fun _ => .ok []) okCall "0xA0b86991" rfl
      (by decide)).2.2.2.2 rfl⟩

/-- C4: with a valid request whose fetch yields `markets`, the route replies
with exactly the per-item transforms (one output per fetched market, in
order, no error escaping); any market whose chain call throws gets
`rate_per_second = "0"`; and a market on which the failing oracle agrees
with a reference oracle is transformed identically (unaffected). -/
theorem claim_C4_chain_failure_isolated (c cBad : ChainCall)
    (markets : List FetchedMorphoMarket) (q : QueryParams) (addr : String)
    (hq : q.loanAssetAddress = some (.str addr)) (hne : addr ≠ "") :
    (marketsHandler q (fun _ => .ok markets) cBad).1
      = .markets (markets.map (transformMarketData cBad))
    ∧ (markets.map (transformMarketData cBad)).length = markets.length
    ∧ (∀ m ∈ markets,
        (∃ err, cBad (buildMarketParams m) (buildMarketStruct m) = .error err) →
        (transformMarketData cBad m).rate_per_second = "0")
    ∧ (∀ m ∈ markets,
        cBad (buildMarketParams m) (buildMarketStruct m)
          = c (buildMarketParams m) (buildMarketStruct m) →
        transformMarketData cBad m = transformMarketData c m) := by
  refine ⟨?_, ?_, ?_, ?_⟩
  · simp [marketsHandler, hq, hne]
  · simp
  · rintro m _ ⟨err, herr⟩
    simp [transformMarketData, getBorrowRateFromContract, herr]
  · intro m _ hagree
    simp [transformMarketData, getBorrowRateFromContract, hagree]

/-- Second sample market (loan token `"0xB2"`), used to make the chain
oracle fail selectively. -/
def marketB2 : FetchedMorphoMarket :=
  { wethUsdcMarket with
    uniqueKey := "0xkeyB2"
    loanAsset := { usdcLoanAsset with address := "0xB2" } }

/-- Third sample market (loan token `"0xB3"`). -/
def marketB3 : FetchedMorphoMarket :=
  { wethUsdcMarket with
    uniqueKey := "0xkeyB3"
    loanAsset := { usdcLoanAsset with address := "0xB3" } }

/-- A chain oracle that throws exactly on `marketB2`'s loan token and
agrees with `okCall` everywhere else. -/
def failOnB2 : ChainCall := fun p _ =>
  if p.loanToken = "0xB2" then .error "revert" else .ok 12345

/-- The valid request used by the C4 and C8 witnesses. -/
def validQuery : QueryParams :=
  { loanAssetAddress := some (.str "0xA0b86991") }

/-- C4 witness: of three fetched markets with the chain call throwing on
the second, the route still replies with the three transforms in order,
the failing market's `rate_per_second` is `"0"`, and the first market's
output equals its output under the everywhere-succeeding oracle. -/
theorem claim_C4_chain_failure_isolated_witness :
    (marketsHandler validQuery
        (fun _ => .ok [wethUsdcMarket, marketB2, marketB3]) failOnB2).1
      = .markets ([wethUsdcMarket, marketB2, marketB3].map (transformMarketData failOnB2))
    ∧ ([wethUsdcMarket, marketB2, marketB3].map (transformMarketData failOnB2)).length = 3
    ∧ (transformMarketData failOnB2 marketB2).rate_per_second = "0"
    ∧ transformMarketData failOnB2 wethUsdcMarket = transformMarketData okCall wethUsdcMarket :=
  ⟨(claim_C4_chain_failure_isolated okCall failOnB2 [wethUsdcMarket, marketB2, marketB3]
      validQuery "0xA0b86991" rfl (by decide)).1,
   (claim_C4_chain_failure_isolated okCall failOnB2 [wethUsdcMarket, marketB2, marketB3]
      validQuery "0xA0b86991" rfl (by decide)).2.1,
   (claim_C4_chain_failure_isolated okCall failOnB2 [wethUsdcMarket, marketB2, marketB3]
      validQuery "0xA0b86991" rfl (by decide)).2.2.1 marketB2
      (by simp) ⟨"revert", rfl⟩,
   (claim_C4_chain_failure_isolated okCall failOnB2 [wethUsdcMarket, marketB2, marketB3]
      validQuery "0xA0b86991" rfl (by decide)).2.2.2 wethUsdcMarket
      (by simp) rfl⟩

/-- C7: USD normalization is `(Number(raw) / 10^decimals) * Number(priceUsd)`
for both totals, and the concrete instance `supplyAssets = "1000000"`,
6 decimals, price `"1.00"` yields `total_supplied = 1`. -/
theorem claim_C7_usd_normalization (call : ChainCall) (market : FetchedMorphoMarket)
    (qs qb qp : ℚ)
    (hs : jsNumber market.state.supplyAssets = some qs)
    (hb : jsNumber market.state.borrowAssets = some qb)
    (hp : jsNumber market.loanAsset.priceUsd = some qp) :
    (transformMarketData call market).total_supplied
      = some (qs / (10 : ℚ) ^ market.loanAsset.decimals * qp)
    ∧ (transformMarketData call market).total_borrowed
      = some (qb / (10 : ℚ) ^ market.loanAsset.decimals * qp)
    ∧ (market.state.supplyAssets = "1000000" → market.loanAsset.decimals = 6 →
        market.loanAsset.priceUsd = "1.00" →
        (transformMarketData call market).total_supplied = some 1) := by
  have key_s : (transformMarketData call market).total_supplied
      = some (qs / (10 : ℚ) ^ market.loanAsset.decimals * qp) := by
    simp [transformMarketData, hs, hp, jnumMul, jnumDivPow10]
  have key_b : (transformMarketData call market).total_borrowed
      = some (qb / (10 : ℚ) ^ market.loanAsset.decimals * qp) := by
    simp [transformMarketData, hb, hp, jnumMul, jnumDivPow10]
  refine ⟨key_s, key_b, ?_⟩
  intro h1 h2 h3
  have hs1 : jsNumber market.state.supplyAssets = some ((1000000 : ℚ)) := by
    rw [h1]; decide
  have hp1 : jsNumber market.loanAsset.priceUsd = some ((1 : ℚ)) := by
    rw [h3]; decide
  have e1 : qs = 1000000 := Option.some.inj (hs.symm.trans hs1)
  have e2 : qp = 1 := Option.some.inj (hp.symm.trans hp1)
  rw [key_s, e1, e2, h2]
  norm_num

/-- C7 witness: the sample USDC market (`supplyAssets = "1000000"`,
6 decimals, price `"1.00"`) has `total_supplied = 1`. -/
theorem claim_C7_usd_normalization_witness :
    (transformMarketData okCall wethUsdcMarket).total_supplied = some 1 :=
  (claim_C7_usd_normalization okCall wethUsdcMarket 1000000 500000 1
      (by decide) (by decide) (by decide)).2.2 rfl rfl rfl

/-- C8: every request with a valid (truthy string) `loanAssetAddress`
issues exactly one outbound GraphQL call, whose variables carry
`where.whitelisted = true` and `where.loanAssetAddress_in` equal to the
given address. -/
theorem claim_C8_single_graphql_call (q : QueryParams)
    (fetcher : FetchMarketsVariables → Except ErrObj (List FetchedMorphoMarket))
    (call : ChainCall) (addr : String)
    (hq : q.loanAssetAddress = some (.str addr)) (hne : addr ≠ "") :
    (marketsHandler q fetcher call).2 = [marketsVariables q addr]
    ∧ (marketsVariables q addr).«where»
        = some { loanAssetAddress_in := some addr, whitelisted := some true } := by
  constructor
  · rcases hfetch : fetcher (marketsVariables q addr) with v | e <;>
      simp [marketsHandler, hq, hne, hfetch]
  · rfl

/-- C8 witness: the valid sample request issues one call whose `where`
carries the given address and `whitelisted = true`. -/
theorem claim_C8_single_graphql_call_witness :
    (marketsHandler validQuery (fun _ => .ok []) okCall).2
      = [marketsVariables validQuery "0xA0b86991"]
    ∧ (marketsVariables validQuery "0xA0b86991").«where»
        = some { loanAssetAddress_in := some "0xA0b86991", whitelisted := some true } :=
  claim_C8_single_graphql_call validQuery (fun _ => .ok []) okCall "0xA0b86991" rfl
    (by decide)

/-- C10: every transformed market carries the constants
`protocol = "Morpho"`, `optimal_usage_ratio = 0.9`, `reserve_factor = 0`,
`source = "Morpho " ++ network`, and `id = uniqueKey`. -/
theorem claim_C10_constant_fields (call : ChainCall) (market : FetchedMorphoMarket) :
    (transformMarketData call market).protocol = "Morpho"
    ∧ (transformMarketData call market).optimal_usage_ratio = 0.9
    ∧ (transformMarketData call market).reserve_factor = 0
    ∧ (transformMarketData call market).source
        = "Morpho " ++ (transformMarketData call market).network
    ∧ (transformMarketData call market).id = market.uniqueKey := by
  refine ⟨rfl, rfl, rfl, rfl, rfl⟩

end Morpho
